import Mathlib

/-!
Shallow embedding of the dmesg-analyzer core (src/parser.rs, src/formatter.rs,
src/rules.rs, and the bucketing loop of src/main.rs) and proofs about it.
-/

namespace DmesgAnalyzer

/-- ASCII fragment of Rust's `str::to_lowercase`, applied characterwise
(all strings relevant to the rules and claims are ASCII). -/
def lowerStr (s : String) : String := String.mk (s.data.map Char.toLower)

/-- Model of Rust's `str::contains` with a string pattern: substring test. -/
def containsSub (hay needle : String) : Bool :=
  decide (needle.data <:+: hay.data)

/-! ## Data model (src/rules.rs) -/

/-- Enum LogCategory from src/rules.rs. -/
inductive LogCategory where
  | Critical
  | Error
  | Warning
  | Info
deriving DecidableEq, Repr

/-- Struct Rule from src/rules.rs: keywords, color name, icon. -/
structure Rule where
  keywords : List String
  color : String
  icon : String
deriving DecidableEq, Repr

/-- Struct RuleSet from src/rules.rs: one rule per severity. -/
structure RuleSet where
  critical : Rule
  error : Rule
  warning : Rule
  info : Rule
deriving DecidableEq, Repr

/-- The rule a `RuleSet` holds for a given category. -/
def RuleSet.ruleFor (rules : RuleSet) : LogCategory → Rule
  | LogCategory.Critical => rules.critical
  | LogCategory.Error => rules.error
  | LogCategory.Warning => rules.warning
  | LogCategory.Info => rules.info

/-- Position of a category in the fixed evaluation order of `parse_log`:
Critical, Error, Warning, Info. -/
def catIdx : LogCategory → Nat
  | LogCategory.Critical => 0
  | LogCategory.Error => 1
  | LogCategory.Warning => 2
  | LogCategory.Info => 3

/-! ## Line decorator (src/formatter.rs)

The `colored` crate renders a `ColoredString` with a foreground color as
`ESC [ codes m` ++ text ++ `ESC [ 0 m`; `.normal()` renders the text
unchanged. We model the colorized rendering (colors enabled). -/

/-- ANSI SGR wrapping as produced by the `colored` crate for a styled string. -/
def ansiWrap (codes s : String) : String :=
  "\x1b[" ++ codes ++ "m" ++ s ++ "\x1b[0m"

/-- The match arms of `format_line` on the lowercased color name:
recognized names style the line, anything else is `.normal()` (unchanged). -/
def colorize (c line : String) : String :=
  if c = "red" then ansiWrap "31" line
  else if c = "bold red" then ansiWrap "1;31" line
  else if c = "green" then ansiWrap "32" line
  else if c = "yellow" then ansiWrap "33" line
  else if c = "blue" then ansiWrap "34" line
  else if c = "magenta" then ansiWrap "35" line
  else if c = "cyan" then ansiWrap "36" line
  else if c = "white" then ansiWrap "37" line
  else if c = "black" then ansiWrap "30" line
  else line

/-- Whether a (lowercased) color name hits a recognized arm of `format_line`
rather than the default `.normal()` arm. -/
def recognizedColor (c : String) : Bool :=
  c = "red" || c = "bold red" || c = "green" || c = "yellow" || c = "blue" ||
  c = "magenta" || c = "cyan" || c = "white" || c = "black"

/-- Function format_line from src/formatter.rs. -/
def format_line (original_line color_name icon : String) : String :=
  icon ++ " " ++ colorize (lowerStr color_name) original_line

/-! ## Line classifier (src/parser.rs) -/

/-- Function matches_rule from src/parser.rs: empty keyword list never matches;
otherwise any keyword occurring as a case-insensitive substring matches. -/
def matches_rule (line : String) (rule : Rule) : Bool :=
  if rule.keywords.isEmpty then
    false
  else
    rule.keywords.any (fun kw => containsSub (lowerStr line) (lowerStr kw))

/-- Function parse_log from src/parser.rs: priority-ordered classification. -/
def parse_log (line : String) (rules : RuleSet) : Option (String × LogCategory) :=
  if matches_rule line rules.critical then
    some (format_line line rules.critical.color rules.critical.icon,
      LogCategory.Critical)
  else if matches_rule line rules.error then
    some (format_line line rules.error.color rules.error.icon,
      LogCategory.Error)
  else if matches_rule line rules.warning then
    some (format_line line rules.warning.color rules.warning.icon,
      LogCategory.Warning)
  else if matches_rule line rules.info then
    some (format_line line rules.info.color rules.info.icon,
      LogCategory.Info)
  else
    none

/-! ## Bucketing driver (src/main.rs, the Step 2 loop) -/

/-- The four buckets built by the loop in `main`. -/
structure Buckets where
  critical : List String
  error : List String
  warning : List String
  info : List String
deriving DecidableEq, Repr

/-- One iteration of the bucketing loop: matched lines push the formatted
string onto the bucket of their category, unmatched lines push the raw
line onto `info`. -/
def bucketStep (rules : RuleSet) (b : Buckets) (line : String) : Buckets :=
  match parse_log line rules with
  | some (s, LogCategory.Critical) => { b with critical := b.critical ++ [s] }
  | some (s, LogCategory.Error) => { b with error := b.error ++ [s] }
  | some (s, LogCategory.Warning) => { b with warning := b.warning ++ [s] }
  | some (s, LogCategory.Info) => { b with info := b.info ++ [s] }
  | none => { b with info := b.info ++ [line] }

/-- The bucketing loop of `main` over a finite list of input lines. -/
def bucket (lines : List String) (rules : RuleSet) : Buckets :=
  lines.foldl (bucketStep rules) ⟨[], [], [], []⟩

/-! ## Configuration resolver (src/rules.rs, `load_rules_with_fallback`)

The file system, the `XDG_CONFIG_HOME` environment variable and the TOML
parser (`toml::from_str`, an external crate) are the ambient effects of the
function; they are passed in explicitly.  `fsExists p` models
`Path::exists`, `fsRead p` models `std::fs::read_to_string` (with `none`
for a read error), and `parseToml` models `toml::from_str` (with `none`
for a parse error).  A `none` overall result models the `panic!` of the
embedded tier; every `eprintln!` warning is pure fall-through here. -/

/-- An abstract file system: existence test and read attempt per path. -/
structure FS where
  fsExists : String → Bool
  fsRead : String → Option String

/-- Tier 1 of `load_rules_with_fallback`: the CLI path, when given.
Succeeds only when the path exists, reads, and parses; the descriptor is
the path itself. -/
def tryCliTier (fs : FS) (parseToml : String → Option RuleSet)
    (cli_path : Option String) : Option (RuleSet × String) :=
  match cli_path with
  | none => none
  | some p =>
    if fs.fsExists p then
      match fs.fsRead p with
      | some contents => (parseToml contents).map (fun rules => (rules, p))
      | none => none
    else
      none

/-- The candidate path of tier 2: `XDG_CONFIG_HOME` joined with
`dmesg-analyzer/default_rules.toml` (modelling `PathBuf::push`). -/
def xdgCandidate (base : String) : String :=
  base ++ "/dmesg-analyzer/default_rules.toml"

/-- Tier 2 of `load_rules_with_fallback`: the XDG config candidate, tried
only when `XDG_CONFIG_HOME` is set and the candidate exists. -/
def tryXdgTier (fs : FS) (parseToml : String → Option RuleSet)
    (xdgConfigHome : Option String) : Option (RuleSet × String) :=
  match xdgConfigHome with
  | none => none
  | some base =>
    let cp := xdgCandidate base
    if fs.fsExists cp then
      match fs.fsRead cp with
      | some contents => (parseToml contents).map (fun rules => (rules, cp))
      | none => none
    else
      none

/-- The fixed system-wide candidate path of tier 3. -/
def sharePath : String := "/usr/share/dmesg-analyzer/default_rules.toml"

/-- Tier 3 of `load_rules_with_fallback`: the `/usr/share` candidate. -/
def tryShareTier (fs : FS) (parseToml : String → Option RuleSet) :
    Option (RuleSet × String) :=
  if fs.fsExists sharePath then
    match fs.fsRead sharePath with
    | some contents => (parseToml contents).map (fun rules => (rules, sharePath))
    | none => none
  else
    none

/-- Tier 4 of `load_rules_with_fallback`: parse the embedded rules text,
descriptor `"embedded"`; a parse failure is the `panic!`, modelled `none`. -/
def embeddedTier (parseToml : String → Option RuleSet)
    (embedded_rules_str : String) : Option (RuleSet × String) :=
  (parseToml embedded_rules_str).map (fun rules => (rules, "embedded"))

/-- Function load_rules_with_fallback from src/rules.rs: the four tiers in order,
first full success wins, any sub-step failure falls through. -/
def load_rules_with_fallback (fs : FS) (xdgConfigHome : Option String)
    (parseToml : String → Option RuleSet) (cli_path : Option String)
    (embedded_rules_str : String) : Option (RuleSet × String) :=
  match tryCliTier fs parseToml cli_path with
  | some r => some r
  | none =>
    match tryXdgTier fs parseToml xdgConfigHome with
    | some r => some r
    | none =>
      match tryShareTier fs parseToml with
      | some r => some r
      | none => embeddedTier parseToml embedded_rules_str

/-! ## Concrete rule sets and inputs used by the closed theorems -/

/-- The rule set of the end-to-end scenario of the spec (colors and icons
are free there; these are representative choices). -/
def testRules : RuleSet :=
  ⟨⟨["oops"], "red", "🔥"⟩,
   ⟨["failed"], "bold red", "❌"⟩,
   ⟨["warn"], "yellow", "⚠️"⟩,
   ⟨[], "white", "ℹ️"⟩⟩

/-- The input lines of the end-to-end scenario of the spec. -/
def testLines : List String :=
  ["kernel: Oops: divide error", "eth0: link down (warn)",
   "systemd: Failed to start unit", "usb 1-1: new device"]

/-! ## Theorems -/

/-- C2: a rule matches a line iff its keyword list is non-empty and some
keyword is a case-insensitive substring of the line; an empty keyword list
matches nothing, and keyword "panic" matches "KERNEL PANIC". -/
theorem matches_rule_characterization :
    (∀ (line : String) (r : Rule),
      matches_rule line r = true ↔
        r.keywords ≠ [] ∧
          ∃ kw ∈ r.keywords, (lowerStr kw).data <:+: (lowerStr line).data) ∧
    (∀ (line : String) (r : Rule), r.keywords = [] →
      matches_rule line r = false) ∧
    matches_rule "KERNEL PANIC" ⟨["panic"], "red", "🔥"⟩ = true := by
  refine ⟨?_, ?_, by decide⟩
  · intro line r
    cases hk : r.keywords with
    | nil => simp [matches_rule, hk]
    | cons a as =>
      simp [matches_rule, hk, containsSub, List.any_eq_true]
  · intro line r h
    simp [matches_rule, h]

/-- Witness for C2: the empty-keyword rule matches no line. -/
theorem matches_rule_characterization_witness :
    matches_rule "kernel: oops" ⟨[], "red", "🔥"⟩ = false :=
  matches_rule_characterization.2.1 "kernel: oops" ⟨[], "red", "🔥"⟩ rfl

/-- C9: a rule whose keyword list contains the empty string matches every
line (the empty string is a substring of everything), and a critical rule
containing the empty keyword makes parse_log return Critical on every line. -/
theorem empty_keyword_matches_all :
    (∀ (line : String) (r : Rule), "" ∈ r.keywords →
      matches_rule line r = true) ∧
    (∀ (line : String) (rules : RuleSet), "" ∈ rules.critical.keywords →
      parse_log line rules =
        some (format_line line rules.critical.color rules.critical.icon,
          LogCategory.Critical)) := by
  have hmatch : ∀ (line : String) (r : Rule), "" ∈ r.keywords →
      matches_rule line r = true := by
    intro line r h
    have hne : r.keywords.isEmpty = false := by
      cases hk : r.keywords with
      | nil => rw [hk] at h; cases h
      | cons a as => rfl
    unfold matches_rule
    simp only [hne, Bool.false_eq_true, if_false, List.any_eq_true]
    refine ⟨"", h, ?_⟩
    have hempty : (lowerStr "").data = [] := rfl
    simp only [containsSub, hempty, decide_eq_true_eq]
    exact List.nil_infix
  refine ⟨hmatch, ?_⟩
  intro line rules h
  unfold parse_log
  rw [hmatch line rules.critical h]
  simp

/-- Witness for C9: a critical rule with the empty keyword classifies an
ordinary info-looking line as Critical. -/
theorem empty_keyword_matches_all_witness :
    parse_log "usb 1-1: new device"
        ⟨⟨[""], "red", "🔥"⟩, ⟨[], "red", "❌"⟩, ⟨[], "yellow", "⚠️"⟩,
          ⟨[], "white", "ℹ️"⟩⟩ =
      some (format_line "usb 1-1: new device" "red" "🔥",
        LogCategory.Critical) :=
  empty_keyword_matches_all.2 "usb 1-1: new device"
    ⟨⟨[""], "red", "🔥"⟩, ⟨[], "red", "❌"⟩, ⟨[], "yellow", "⚠️"⟩,
      ⟨[], "white", "ℹ️"⟩⟩ (by decide)

/-- C6: format_line is total (it is a Lean function), and an unrecognized
color name silently degrades to unstyled text with the icon still
prepended, for every line, icon and color name. -/
theorem format_line_unrecognized_degrades :
    ∀ (line color icon : String), recognizedColor (lowerStr color) = false →
      format_line line color icon = icon ++ " " ++ line := by
  intro line color icon h
  unfold recognizedColor at h
  simp only [Bool.or_eq_false_iff, decide_eq_false_iff_not] at h
  obtain ⟨⟨⟨⟨⟨⟨⟨⟨h1, h2⟩, h3⟩, h4⟩, h5⟩, h6⟩, h7⟩, h8⟩, h9⟩ := h
  unfold format_line colorize
  simp [h1, h2, h3, h4, h5, h6, h7, h8, h9]

/-- Witness for C6: the unrecognized color "chartreuse" yields unstyled
output with the icon prepended, on a non-ASCII line. -/
theorem format_line_unrecognized_degrades_witness :
    recognizedColor (lowerStr "chartreuse") = false ∧
    format_line "héllo wörld" "chartreuse" "ℹ️" = "ℹ️" ++ " " ++ "héllo wörld" :=
  ⟨by decide,
    format_line_unrecognized_degrades "héllo wörld" "chartreuse" "ℹ️" (by decide)⟩

/-- C10: color-name recognition is case-insensitive: two color names with
the same lowercasing produce identical output for every line and icon. -/
theorem format_line_color_case_insensitive :
    ∀ (line icon c1 c2 : String), lowerStr c1 = lowerStr c2 →
      format_line line c1 icon = format_line line c2 icon := by
  intro line icon c1 c2 h
  unfold format_line
  rw [h]

/-- Witness for C10: "RED", "Red" and "red" all render identically. -/
theorem format_line_color_case_insensitive_witness :
    (lowerStr "RED" = lowerStr "red" ∧
      format_line "kernel: Oops" "RED" "🔥" = format_line "kernel: Oops" "red" "🔥") ∧
    (lowerStr "Red" = lowerStr "red" ∧
      format_line "kernel: Oops" "Red" "🔥" = format_line "kernel: Oops" "red" "🔥") :=
  ⟨⟨by decide,
      format_line_color_case_insensitive "kernel: Oops" "🔥" "RED" "red" (by decide)⟩,
    ⟨by decide,
      format_line_color_case_insensitive "kernel: Oops" "🔥" "Red" "red" (by decide)⟩⟩

/-- C7 counterexample: the spec's color name "bold-red" (with a hyphen) is
NOT recognized by format_line — the code's arm is "bold red" with a space —
so "bold-red" falls into the unstyled-degradation branch, refuting the
claim that none of the nine listed names does. -/
theorem bold_red_hyphen_is_unrecognized :
    recognizedColor (lowerStr "bold-red") = false ∧
    format_line "kernel: Oops" "bold-red" "🔥" = "🔥" ++ " " ++ "kernel: Oops" ∧
    format_line "kernel: Oops" "bold red" "🔥" =
      "🔥" ++ " " ++ ansiWrap "1;31" "kernel: Oops" := by
  refine ⟨by decide, by decide, by decide⟩

/-- C7 amended: with "bold-red" read as the code's "bold red", each of the
nine color names red, bold red, green, yellow, blue, magenta, cyan, white,
black is recognized and styles the line (none degrades to unstyled). -/
theorem format_line_recognized_colors :
    ∀ (line icon : String),
      format_line line "red" icon = icon ++ " " ++ ansiWrap "31" line ∧
      format_line line "bold red" icon = icon ++ " " ++ ansiWrap "1;31" line ∧
      format_line line "green" icon = icon ++ " " ++ ansiWrap "32" line ∧
      format_line line "yellow" icon = icon ++ " " ++ ansiWrap "33" line ∧
      format_line line "blue" icon = icon ++ " " ++ ansiWrap "34" line ∧
      format_line line "magenta" icon = icon ++ " " ++ ansiWrap "35" line ∧
      format_line line "cyan" icon = icon ++ " " ++ ansiWrap "36" line ∧
      format_line line "white" icon = icon ++ " " ++ ansiWrap "37" line ∧
      format_line line "black" icon = icon ++ " " ++ ansiWrap "30" line := by
  intro line icon
  exact ⟨rfl, rfl, rfl, rfl, rfl, rfl, rfl, rfl, rfl⟩

/-- C1: parse_log returns at most one category (it returns an Option), and
whenever it returns one, that category's rule matches the line, the string
is the decorated line for that rule, and no rule earlier in the fixed order
Critical, Error, Warning, Info matches (so later rules are never the
result once an earlier one matches). -/
theorem parse_log_first_match :
    ∀ (line : String) (rules : RuleSet) (s : String) (c : LogCategory),
      parse_log line rules = some (s, c) →
        matches_rule line (rules.ruleFor c) = true ∧
        s = format_line line (rules.ruleFor c).color (rules.ruleFor c).icon ∧
        ∀ c', catIdx c' < catIdx c → matches_rule line (rules.ruleFor c') = false := by
  intro line rules s c h
  unfold parse_log at h
  split_ifs at h with h1 h2 h3 h4 <;>
    simp only [Option.some.injEq, Prod.mk.injEq] at h <;>
    obtain ⟨hs, hc⟩ := h <;> subst hc <;> subst hs <;>
    refine ⟨by simpa [RuleSet.ruleFor], rfl, ?_⟩ <;>
    intro c' hlt <;> cases c' <;>
    simp_all [RuleSet.ruleFor, catIdx]

/-- Witness for C1: the warning line of the scenario rule set is classified
Warning, its rule matches, and the critical and error rules do not. -/
theorem parse_log_first_match_witness :
    matches_rule "eth0: link down (warn)" (testRules.ruleFor LogCategory.Warning) = true ∧
    format_line "eth0: link down (warn)" testRules.warning.color testRules.warning.icon =
      format_line "eth0: link down (warn)" (testRules.ruleFor LogCategory.Warning).color
        (testRules.ruleFor LogCategory.Warning).icon ∧
    ∀ c', catIdx c' < catIdx LogCategory.Warning →
      matches_rule "eth0: link down (warn)" (testRules.ruleFor c') = false :=
  parse_log_first_match "eth0: link down (warn)" testRules
    (format_line "eth0: link down (warn)" testRules.warning.color testRules.warning.icon)
    LogCategory.Warning (by decide)

/-- Lines selected into the critical bucket, in input order. -/
def selCritical (rules : RuleSet) (line : String) : Option String :=
  match parse_log line rules with
  | some (s, LogCategory.Critical) => some s
  | _ => none

/-- Lines selected into the error bucket, in input order. -/
def selError (rules : RuleSet) (line : String) : Option String :=
  match parse_log line rules with
  | some (s, LogCategory.Error) => some s
  | _ => none

/-- Lines selected into the warning bucket, in input order. -/
def selWarning (rules : RuleSet) (line : String) : Option String :=
  match parse_log line rules with
  | some (s, LogCategory.Warning) => some s
  | _ => none

/-- Lines selected into the info bucket: decorated matched Info lines, and
unmatched lines verbatim. -/
def selInfo (rules : RuleSet) (line : String) : Option String :=
  match parse_log line rules with
  | some (s, LogCategory.Info) => some s
  | some (_, LogCategory.Critical) => none
  | some (_, LogCategory.Error) => none
  | some (_, LogCategory.Warning) => none
  | none => some line

/-- Generalized bucketing invariant: folding from any accumulator appends
each bucket's selected subsequence, in input order. -/
theorem bucket_foldl_eq (rules : RuleSet) :
    ∀ (lines : List String) (b : Buckets),
      lines.foldl (bucketStep rules) b =
        ⟨b.critical ++ lines.filterMap (selCritical rules),
         b.error ++ lines.filterMap (selError rules),
         b.warning ++ lines.filterMap (selWarning rules),
         b.info ++ lines.filterMap (selInfo rules)⟩ := by
  intro lines
  induction lines with
  | nil => intro b; simp
  | cons l ls ih =>
    intro b
    simp only [List.foldl_cons, List.filterMap_cons]
    rw [ih]
    rcases h : parse_log l rules with _ | ⟨s, c⟩
    · simp [bucketStep, selCritical, selError, selWarning, selInfo, h]
    · cases c <;>
        simp [bucketStep, selCritical, selError, selWarning, selInfo, h]

/-- Each line is selected by exactly one of the four bucket selectors. -/
theorem sel_exactly_one (rules : RuleSet) (l : String) :
    (selCritical rules l).toList.length + (selError rules l).toList.length +
      (selWarning rules l).toList.length + (selInfo rules l).toList.length = 1 := by
  unfold selCritical selError selWarning selInfo
  rcases h : parse_log l rules with _ | ⟨s, c⟩
  · simp
  · cases c <;> simp

/-- C3: bucketing is a stable partition: each bucket equals the in-order
subsequence chosen by its selector (matched lines decorated into their
category's bucket, unmatched lines verbatim into info), and the four
bucket lengths sum to the number of input lines (every line lands in
exactly one bucket). -/
theorem bucket_stable_partition :
    ∀ (lines : List String) (rules : RuleSet),
      bucket lines rules =
        ⟨lines.filterMap (selCritical rules), lines.filterMap (selError rules),
         lines.filterMap (selWarning rules), lines.filterMap (selInfo rules)⟩ ∧
      (bucket lines rules).critical.length + (bucket lines rules).error.length +
        (bucket lines rules).warning.length + (bucket lines rules).info.length =
        lines.length := by
  intro lines rules
  have hpart : bucket lines rules =
      ⟨lines.filterMap (selCritical rules), lines.filterMap (selError rules),
       lines.filterMap (selWarning rules), lines.filterMap (selInfo rules)⟩ := by
    unfold bucket
    rw [bucket_foldl_eq rules lines ⟨[], [], [], []⟩]
    simp
  refine ⟨hpart, ?_⟩
  rw [hpart]
  clear hpart
  dsimp only
  induction lines with
  | nil => simp
  | cons l ls ih =>
    simp only [List.filterMap_cons]
    rcases h : parse_log l rules with _ | ⟨s, c⟩
    · simp [selCritical, selError, selWarning, selInfo, h]
      omega
    · cases c <;> simp [selCritical, selError, selWarning, selInfo, h] <;> omega

/-- C8: the end-to-end scenario: with the scenario rule set, line 1 goes
decorated to critical, line 3 decorated to error, line 2 decorated to
warning, and line 4 raw and undecorated to info. -/
theorem end_to_end_scenario :
    bucket testLines testRules =
      ⟨[format_line "kernel: Oops: divide error" "red" "🔥"],
       [format_line "systemd: Failed to start unit" "bold red" "❌"],
       [format_line "eth0: link down (warn)" "yellow" "⚠️"],
       ["usb 1-1: new device"]⟩ := by
  decide

/-- C4: when the explicit path exists and reads but fails to parse, and the
XDG candidate exists, reads and parses, resolution returns the XDG rule set
tagged with the XDG candidate path (not the embedded default); moreover a
failure at any sub-step of tiers 1–3 (the whole tier yielding nothing)
falls through to the next tier. -/
theorem resolver_explicit_parse_failure_uses_xdg :
    (∀ (fs : FS) (parseToml : String → Option RuleSet)
        (p c base c2 : String) (rs : RuleSet) (embedded : String),
      fs.fsExists p = true → fs.fsRead p = some c → parseToml c = none →
      fs.fsExists (xdgCandidate base) = true →
      fs.fsRead (xdgCandidate base) = some c2 → parseToml c2 = some rs →
      load_rules_with_fallback fs (some base) parseToml (some p) embedded =
        some (rs, xdgCandidate base)) ∧
    (∀ (fs : FS) (xdg : Option String) (parseToml : String → Option RuleSet)
        (cli : Option String) (embedded : String),
      tryCliTier fs parseToml cli = none →
      load_rules_with_fallback fs xdg parseToml cli embedded =
        load_rules_with_fallback fs xdg parseToml none embedded) ∧
    (∀ (fs : FS) (xdg : Option String) (parseToml : String → Option RuleSet)
        (embedded : String),
      tryXdgTier fs parseToml xdg = none →
      load_rules_with_fallback fs xdg parseToml none embedded =
        load_rules_with_fallback fs none parseToml none embedded) ∧
    (∀ (fs : FS) (parseToml : String → Option RuleSet) (embedded : String),
      tryShareTier fs parseToml = none →
      load_rules_with_fallback fs none parseToml none embedded =
        embeddedTier parseToml embedded) := by
  refine ⟨?_, ?_, ?_, ?_⟩
  · intro fs parseToml p c base c2 rs embedded h1 h2 h3 h4 h5 h6
    unfold load_rules_with_fallback tryCliTier tryXdgTier
    simp [h1, h2, h3, h4, h5, h6]
  · intro fs xdg parseToml cli embedded h
    unfold load_rules_with_fallback
    rw [h]
    rfl
  · intro fs xdg parseToml embedded h
    unfold load_rules_with_fallback
    rw [h]
    rfl
  · intro fs parseToml embedded h
    unfold load_rules_with_fallback
    rw [h]
    rfl

/-- A file system for the C4 witness: an explicit path holding unparsable
text and an XDG candidate holding parsable text. -/
def fsWitness : FS :=
  ⟨fun p => p = "/tmp/custom.toml" || p = xdgCandidate "/home/u/.config",
   fun p =>
     if p = "/tmp/custom.toml" then some "bad toml"
     else if p = xdgCandidate "/home/u/.config" then some "good toml"
     else none⟩

/-- The TOML parser for the C4 and C5 witnesses: only "good toml" parses. -/
def parseWitness : String → Option RuleSet :=
  fun s => if s = "good toml" then some testRules else none

/-- Witness for C4: with the witness file system, an explicit path that
fails to parse and a valid XDG candidate, resolution returns the XDG rule
set tagged with the XDG candidate path. -/
theorem resolver_explicit_parse_failure_uses_xdg_witness :
    load_rules_with_fallback fsWitness (some "/home/u/.config") parseWitness
        (some "/tmp/custom.toml") "embedded text" =
      some (testRules, xdgCandidate "/home/u/.config") :=
  resolver_explicit_parse_failure_uses_xdg.1 fsWitness parseWitness
    "/tmp/custom.toml" "bad toml" "/home/u/.config" "good toml" testRules
    "embedded text" (by decide) (by decide) (by decide) (by decide) (by decide)
    (by decide)

/-- A file system on which every candidate path is absent (C5 witness). -/
def fsEmpty : FS := ⟨fun _ => false, fun _ => none⟩

/-- C5: when all three file tiers yield nothing (absent or invalid),
resolution returns the parse of the embedded text tagged "embedded"; if
the embedded text itself fails to parse, the resolver halts (modelled as
no result — the panic branch) with no further fallback. -/
theorem resolver_embedded_fallback :
    ∀ (fs : FS) (xdg : Option String) (parseToml : String → Option RuleSet)
      (cli : Option String) (embedded : String),
      tryCliTier fs parseToml cli = none →
      tryXdgTier fs parseToml xdg = none →
      tryShareTier fs parseToml = none →
      load_rules_with_fallback fs xdg parseToml cli embedded =
        embeddedTier parseToml embedded ∧
      (∀ rs, parseToml embedded = some rs →
        load_rules_with_fallback fs xdg parseToml cli embedded =
          some (rs, "embedded")) ∧
      (parseToml embedded = none →
        load_rules_with_fallback fs xdg parseToml cli embedded = none) := by
  intro fs xdg parseToml cli embedded h1 h2 h3
  have hmain : load_rules_with_fallback fs xdg parseToml cli embedded =
      embeddedTier parseToml embedded := by
    unfold load_rules_with_fallback
    rw [h1, h2, h3]
  refine ⟨hmain, ?_, ?_⟩
  · intro rs hrs
    rw [hmain]
    unfold embeddedTier
    rw [hrs]
    rfl
  · intro hnone
    rw [hmain]
    unfold embeddedTier
    rw [hnone]
    rfl

/-- Witness for C5: with no candidate file present and parsable embedded
text, resolution returns the embedded rule set tagged "embedded". -/
theorem resolver_embedded_fallback_witness :
    load_rules_with_fallback fsEmpty (some "/home/u/.config") parseWitness none
        "good toml" =
      some (testRules, "embedded") :=
  (resolver_embedded_fallback fsEmpty (some "/home/u/.config") parseWitness none
      "good toml" (by decide) (by decide) (by decide)).2.1 testRules (by decide)

end DmesgAnalyzer
